import Mathlib

/-!
Verification of the pentathon-server timer engine against its
natural-language specification.

The development shallowly embeds the JavaScript source:
  * `JSNum` models a JavaScript number (NaN, ±Infinity, or a finite
    rational); the operations implement IEEE-style comparison and
    arithmetic as JavaScript exposes them (every comparison involving
    NaN is false, `Math.floor`/`Math.max` propagate NaN, and so on).
  * `JSVal` models a dynamically typed JavaScript value as far as the
    settings-update code inspects one (`typeof x === "number"` /
    `typeof x === "string"` / anything else, including `undefined`).
  * `TimerManager.Manager` models the mutable fields of the
    `TimerManager` class in `src/timer.js`; the injected broadcast
    callback is modelled by a success oracle `bc : Nat → Bool` giving
    the outcome of each successive callback invocation (`false` means
    the callback throws), together with an invocation counter `bcIdx`
    and the list `sent` of successfully delivered messages.
  * Each method of the class becomes a pure state-transformer; wall
    clock reads (`Date.now()`) become an explicit `now : Int`
    (milliseconds) argument, constant within one call.
-/

/-- A JavaScript number: NaN, +Infinity, -Infinity, or a finite value
(modelled as a rational; every finite value the timer code produces is
exactly representable). -/
inductive JSNum where
  | nan : JSNum
  | posInf : JSNum
  | negInf : JSNum
  | num : ℚ → JSNum
deriving DecidableEq, Repr

namespace JSNum

/-- JavaScript `x <= 0` (false for NaN and +Infinity). -/
def leZero : JSNum → Bool
  | nan => false
  | posInf => false
  | negInf => true
  | num q => decide (q ≤ 0)

/-- JavaScript `x >= 0` (false for NaN and -Infinity). -/
def geZero : JSNum → Bool
  | nan => false
  | posInf => true
  | negInf => false
  | num q => decide (0 ≤ q)

/-- JavaScript `x <= 1` (false for NaN and +Infinity). -/
def leOne : JSNum → Bool
  | nan => false
  | posInf => false
  | negInf => true
  | num q => decide (q ≤ 1)

/-- JavaScript `x > 0` (false for NaN and -Infinity). -/
def gtZero : JSNum → Bool
  | nan => false
  | posInf => true
  | negInf => false
  | num q => decide (0 < q)

/-- Floor of a rational as an integer, computed by floored integer
division of the numerator by the (positive) denominator so that closed
terms reduce in the kernel; `ratFloor_eq_floor` below identifies it
with `Int.floor`. -/
def ratFloor (q : ℚ) : ℤ := Int.fdiv q.num (q.den : ℤ)

/-- JavaScript `Math.floor` (NaN and the infinities map to themselves). -/
def floor : JSNum → JSNum
  | nan => nan
  | posInf => posInf
  | negInf => negInf
  | num q => num (ratFloor q : ℤ)

/-- JavaScript addition (NaN absorbs; Infinity − Infinity is NaN). -/
def add : JSNum → JSNum → JSNum
  | nan, _ => nan
  | _, nan => nan
  | posInf, negInf => nan
  | negInf, posInf => nan
  | posInf, _ => posInf
  | _, posInf => posInf
  | negInf, _ => negInf
  | _, negInf => negInf
  | num a, num b => num (a + b)

/-- JavaScript unary negation. -/
def neg : JSNum → JSNum
  | nan => nan
  | posInf => negInf
  | negInf => posInf
  | num q => num (-q)

/-- JavaScript subtraction. -/
def sub (a b : JSNum) : JSNum := add a (neg b)

/-- JavaScript multiplication (NaN absorbs; 0 × ±Infinity is NaN). -/
def mul : JSNum → JSNum → JSNum
  | nan, _ => nan
  | _, nan => nan
  | posInf, posInf => posInf
  | posInf, negInf => negInf
  | negInf, posInf => negInf
  | negInf, negInf => posInf
  | posInf, num q => if 0 < q then posInf else if q < 0 then negInf else nan
  | num q, posInf => if 0 < q then posInf else if q < 0 then negInf else nan
  | negInf, num q => if 0 < q then negInf else if q < 0 then posInf else nan
  | num q, negInf => if 0 < q then negInf else if q < 0 then posInf else nan
  | num a, num b => num (a * b)

/-- JavaScript `Math.max(0, x)` (NaN propagates: `Math.max(0, NaN)` is NaN). -/
def max0 : JSNum → JSNum
  | nan => nan
  | posInf => posInf
  | negInf => num 0
  | num q => num (if q ≤ 0 then 0 else q)

/-- JavaScript truthiness of a number (`0` and `NaN` are falsy). -/
def truthy : JSNum → Bool
  | nan => false
  | posInf => true
  | negInf => true
  | num q => decide (q ≠ 0)

end JSNum

/-- A dynamically typed JavaScript value, as far as the settings code
inspects one: `undefined` (or any value that is neither a number nor a
string), a number, or a string. -/
inductive JSVal where
  | undef : JSVal
  | numv : JSNum → JSVal
  | strv : String → JSVal
deriving DecidableEq, Repr

namespace JSVal

/-- JavaScript `typeof v === "number"`. -/
def isNumber : JSVal → Bool
  | numv _ => true
  | _ => false

/-- JavaScript `typeof v === "string"`. -/
def isString : JSVal → Bool
  | strv _ => true
  | _ => false

/-- The numeric payload of a value (NaN when it is not a number; only
read behind an `isNumber` guard). -/
def asNum : JSVal → JSNum
  | numv n => n
  | _ => JSNum.nan

/-- The string payload of a value (empty when it is not a string; only
read behind an `isString` guard). -/
def asStr : JSVal → String
  | strv s => s
  | _ => ""

end JSVal

/-- JavaScript truthiness of a millisecond timestamp field that is
either `null` or a number (`null` and `0` are falsy). -/
def truthyOptInt : Option ℤ → Bool
  | none => false
  | some v => decide (v ≠ 0)

/-- The `settings` record held inside `timerState` (field list as used
throughout `src/timer.js`; the defaults live in `types.js`, which is
not part of the sources, so states are parameterised by an initial
`Settings` value). -/
structure Settings where
  regularSubTime : JSNum
  tier2SubTime : JSNum
  tier3SubTime : JSNum
  primeSubTime : JSNum
  giftSubTime : JSNum
  timerSize : JSNum
  timerColor : String
  timerFont : String
  timerShadowColor : String
  timerShadowBlur : JSNum
  timerShadowOpacity : JSNum
  timerShadowX : JSNum
  timerShadowY : JSNum
deriving DecidableEq, Repr

/-- A partial settings object handed to `updateSettings`: each field is
whatever JavaScript value the caller supplied (absent = `undefined`). -/
structure SettingsUpdate where
  regularSubTime : JSVal
  tier2SubTime : JSVal
  tier3SubTime : JSVal
  primeSubTime : JSVal
  giftSubTime : JSVal
  timerSize : JSVal
  timerColor : JSVal
  timerFont : JSVal
  timerShadowColor : JSVal
  timerShadowBlur : JSVal
  timerShadowOpacity : JSVal
  timerShadowX : JSVal
  timerShadowY : JSVal
deriving DecidableEq, Repr

/-- The all-`undefined` update (an empty partial object). -/
def SettingsUpdate.empty : SettingsUpdate :=
  { regularSubTime := JSVal.undef, tier2SubTime := JSVal.undef
    tier3SubTime := JSVal.undef, primeSubTime := JSVal.undef
    giftSubTime := JSVal.undef, timerSize := JSVal.undef
    timerColor := JSVal.undef, timerFont := JSVal.undef
    timerShadowColor := JSVal.undef, timerShadowBlur := JSVal.undef
    timerShadowOpacity := JSVal.undef, timerShadowX := JSVal.undef
    timerShadowY := JSVal.undef }

/-- Broadcast messages, mirroring the JSON payloads the source passes
to the injected broadcast callback. -/
inductive Msg where
  | timerStarted (timeRemaining : JSNum) (isActive : Bool)
  | timerStopped (timeRemaining : JSNum) (isActive : Bool)
  | timerReset (timeRemaining : JSNum)
  | timerUpdate (timeRemaining : JSNum) (isActive : Bool)
  | timerEnded
  | timeAdded (timeRemaining : JSNum) (isActive : Bool)
      (addedTime : JSNum) (previousTime : JSNum)
  | settingsUpdated (settings : Settings)
  | timerSizeUpdate (size : JSNum)
  | timerStyleUpdate (timerColor timerFont timerShadowColor : String)
      (timerShadowBlur timerShadowOpacity timerShadowX timerShadowY : JSNum)
  | subscription (username msgId subPlan tierName : String)
      (timeAdded : JSNum) (subCount : JSNum) (subType : String)
      (recipient : Option String) (months : Option JSNum)
deriving DecidableEq, Repr

namespace TimerManager

/-- The `this.timerState` object of the `TimerManager` class. -/
structure TimerState where
  timeRemaining : JSNum
  isActive : Bool
  settings : Settings
deriving DecidableEq, Repr

/-- The mutable fields of a `TimerManager` instance.  The injected
callbacks are modelled by presence flags (`broadcastCallback`,
`saveStateCallback`); actual callback outcomes come from the oracle
passed to each operation.  `bcIdx` counts broadcast-callback
invocations (successful or throwing), `sent` lists the successfully
delivered messages, and `saveCount` counts save-hook invocations. -/
structure Manager where
  timerState : TimerState
  timerInterval : Bool
  startTime : Option ℤ
  baseTimeRemaining : Option JSNum
  broadcastCallback : Bool
  saveStateCallback : Bool
  errorCount : ℕ
  lastBroadcast : Option ℤ
  lastRecoveryAttempt : Option ℤ
  bcIdx : ℕ
  sent : List Msg
  saveCount : ℕ
deriving DecidableEq, Repr

/-- `this.maxErrors`. -/
def maxErrors : ℕ := 10

/-- The constructor state (`new TimerManager()`), parameterised by the
default settings imported from `types.js`. -/
def init (s0 : Settings) : Manager :=
  { timerState :=
      { timeRemaining := JSNum.num (3600 * 16), isActive := false, settings := s0 }
    timerInterval := false
    startTime := none
    baseTimeRemaining := none
    broadcastCallback := false
    saveStateCallback := false
    errorCount := 0
    lastBroadcast := none
    lastRecoveryAttempt := none
    bcIdx := 0
    sent := []
    saveCount := 0 }

/-- `setBroadcastCallback(callback)` with a non-null callback. -/
def setBroadcastCallback (st : Manager) : Manager :=
  { st with broadcastCallback := true }

/-- `setSaveStateCallback(callback)` with a non-null callback. -/
def setSaveStateCallback (st : Manager) : Manager :=
  { st with saveStateCallback := true }

/-- Invoking the injected broadcast callback: the oracle decides
whether invocation number `i` returns normally or throws. -/
def runCallback (bc : ℕ → Bool) (i : ℕ) : Except String Unit :=
  if bc i then Except.ok () else Except.error "callback threw"

/-- `broadcast(data)`: if a callback is installed, invoke it inside
`try`/`catch`; on success record the delivery, stamp `lastBroadcast`
and zero `errorCount`; on a throw increment `errorCount` and, at
`maxErrors`, null out the callback. -/
def broadcast (bc : ℕ → Bool) (now : ℤ) (st : Manager) (msg : Msg) : Manager :=
  if st.broadcastCallback then
    match runCallback bc st.bcIdx with
    | Except.ok _ =>
        { st with bcIdx := st.bcIdx + 1, sent := st.sent ++ [msg]
                  lastBroadcast := some now, errorCount := 0 }
    | Except.error _ =>
        if maxErrors ≤ st.errorCount + 1 then
          { st with bcIdx := st.bcIdx + 1, errorCount := st.errorCount + 1
                    broadcastCallback := false }
        else
          { st with bcIdx := st.bcIdx + 1, errorCount := st.errorCount + 1 }
  else st

/-- `getCurrentTimeRemaining()`: when the timer is active and both
ephemeral fields are truthy, recompute the remaining time from elapsed
wall-clock time; otherwise return the stored value. -/
def getCurrentTimeRemaining (now : ℤ) (st : Manager) : JSNum :=
  if !(st.timerState.isActive && truthyOptInt st.startTime &&
        JSNum.truthy (st.baseTimeRemaining.getD JSNum.nan)) then
    st.timerState.timeRemaining
  else
    let s := st.startTime.getD 0
    let elapsedSeconds : ℤ := Int.fdiv (now - s) 1000
    JSNum.max0 (JSNum.sub (st.baseTimeRemaining.getD JSNum.nan) (JSNum.num elapsedSeconds))

/-- `updateTimeRemaining()`. -/
def updateTimeRemaining (now : ℤ) (st : Manager) : Manager :=
  if st.timerState.isActive then
    { st with timerState :=
        { st.timerState with timeRemaining := getCurrentTimeRemaining now st } }
  else st

/-- `getState()` mutates by reconciling the stored time; the returned
snapshot is the post-mutation `timerState` (plus `lastUpdate` and
`errorCount`, which carry no extra state). -/
def getState (now : ℤ) (st : Manager) : Manager :=
  updateTimeRemaining now st

/-- `stop()`: clear the interval if present, reconcile the stored time,
drop the ephemeral start fields, and broadcast `timer_stopped`. -/
def stop (bc : ℕ → Bool) (now : ℤ) (st : Manager) : Manager :=
  let st1 := if st.timerInterval then { st with timerInterval := false } else st
  let st2 := updateTimeRemaining now st1
  let st3 := { st2 with
      timerState := { st2.timerState with isActive := false }
      startTime := none, baseTimeRemaining := none }
  broadcast bc now st3
    (Msg.timerStopped st3.timerState.timeRemaining st3.timerState.isActive)

/-- `start()`: always stop first, mark active, capture the start
timestamp and base remaining time, schedule the interval, and
broadcast `timer_started`. -/
def start (bc : ℕ → Bool) (now : ℤ) (st : Manager) : Manager :=
  let st1 := stop bc now st
  let st2 := { st1 with
      timerState := { st1.timerState with isActive := true }
      startTime := some now
      baseTimeRemaining := some st1.timerState.timeRemaining }
  let st3 := { st2 with timerInterval := true }
  broadcast bc now st3
    (Msg.timerStarted st3.timerState.timeRemaining st3.timerState.isActive)

/-- `reset(time = 3600)`: stop, set the remaining time to
`Math.max(0, Math.floor(time))`, and broadcast `timer_reset`. -/
def reset (bc : ℕ → Bool) (now : ℤ) (st : Manager) (time : JSNum) : Manager :=
  let st1 := stop bc now st
  let st2 := { st1 with
      timerState := { st1.timerState with
        timeRemaining := JSNum.max0 (JSNum.floor time) } }
  broadcast bc now st2 (Msg.timerReset st2.timerState.timeRemaining)

/-- `addTime(seconds, subscriberDetails = null)` for a numeric
argument (the `typeof seconds !== "number"` half of the guard cannot
fire).  The JavaScript also receives a `subscriberDetails` argument
that its body never uses, so it is omitted here. -/
def addTime (bc : ℕ → Bool) (now : ℤ) (st : Manager) (seconds : JSNum) : Manager :=
  if seconds.leZero then st
  else
    let previousTime := st.timerState.timeRemaining
    let st1 :=
      if st.timerState.isActive then
        let stu := updateTimeRemaining now st
        let newBase := JSNum.add stu.timerState.timeRemaining (JSNum.floor seconds)
        { stu with baseTimeRemaining := some newBase }
      else st
    let st2 := { st1 with timerState := { st1.timerState with
        timeRemaining := JSNum.add st1.timerState.timeRemaining (JSNum.floor seconds) } }
    broadcast bc now st2
      (Msg.timeAdded st2.timerState.timeRemaining st2.timerState.isActive
        seconds previousTime)

/-- One numeric settings field guarded by
`typeof v === "number" && v >= 0`. -/
def updNonneg (cur : JSNum) (v : JSVal) : JSNum :=
  if v.isNumber && (v.asNum).geZero then v.asNum else cur

/-- The opacity field, guarded by
`typeof v === "number" && v >= 0 && v <= 1`. -/
def updOpacity (cur : JSNum) (v : JSVal) : JSNum :=
  if v.isNumber && (v.asNum).geZero && (v.asNum).leOne then v.asNum else cur

/-- A shadow-offset field, guarded only by `typeof v === "number"`. -/
def updAnyNum (cur : JSNum) (v : JSVal) : JSNum :=
  if v.isNumber then v.asNum else cur

/-- A string styling field, guarded only by `typeof v === "string"`. -/
def updStr (cur : String) (v : JSVal) : String :=
  if v.isString then v.asStr else cur

/-- The field-by-field merge that `updateSettings` performs on
`this.timerState.settings`. -/
def applySettings (s : Settings) (u : SettingsUpdate) : Settings :=
  { regularSubTime := updNonneg s.regularSubTime u.regularSubTime
    tier2SubTime := updNonneg s.tier2SubTime u.tier2SubTime
    tier3SubTime := updNonneg s.tier3SubTime u.tier3SubTime
    primeSubTime := updNonneg s.primeSubTime u.primeSubTime
    giftSubTime := updNonneg s.giftSubTime u.giftSubTime
    timerSize := updNonneg s.timerSize u.timerSize
    timerColor := updStr s.timerColor u.timerColor
    timerFont := updStr s.timerFont u.timerFont
    timerShadowColor := updStr s.timerShadowColor u.timerShadowColor
    timerShadowBlur := updNonneg s.timerShadowBlur u.timerShadowBlur
    timerShadowOpacity := updOpacity s.timerShadowOpacity u.timerShadowOpacity
    timerShadowX := updAnyNum s.timerShadowX u.timerShadowX
    timerShadowY := updAnyNum s.timerShadowY u.timerShadowY }

/-- The `stylingUpdated` flag: set exactly when one of the styling
branches applied its field. -/
def stylingUpdated (u : SettingsUpdate) : Bool :=
  u.timerColor.isString || u.timerFont.isString || u.timerShadowColor.isString ||
    (u.timerShadowBlur.isNumber && (u.timerShadowBlur.asNum).geZero) ||
    (u.timerShadowOpacity.isNumber && (u.timerShadowOpacity.asNum).geZero &&
      (u.timerShadowOpacity.asNum).leOne) ||
    u.timerShadowX.isNumber || u.timerShadowY.isNumber

/-- `updateSettings(settings)`: merge valid fields, broadcast
`timer_size_update` when the size branch fired (with the input value),
`timer_style_update` when a styling branch fired (with the merged
values), then `settings_updated`, then invoke the save hook inside its
own `try`/`catch`. -/
def updateSettings (bc : ℕ → Bool) (now : ℤ) (st : Manager) (u : SettingsUpdate) :
    Manager :=
  let s1 := applySettings st.timerState.settings u
  let st1 := { st with timerState := { st.timerState with settings := s1 } }
  let st2 :=
    if u.timerSize.isNumber && (u.timerSize.asNum).geZero then
      broadcast bc now st1 (Msg.timerSizeUpdate u.timerSize.asNum)
    else st1
  let st3 :=
    if stylingUpdated u then
      broadcast bc now st2
        (Msg.timerStyleUpdate s1.timerColor s1.timerFont s1.timerShadowColor
          s1.timerShadowBlur s1.timerShadowOpacity s1.timerShadowX s1.timerShadowY)
    else st2
  let st4 := broadcast bc now st3 (Msg.settingsUpdated s1)
  if st4.saveStateCallback then { st4 with saveCount := st4.saveCount + 1 } else st4

/-- The result of `isHealthy()`. -/
structure Health where
  healthy : Bool
  issues : List String
deriving DecidableEq, Repr

/-- `isHealthy()`: collect the four issue checks and report healthy
exactly when none fired. -/
def isHealthy (now : ℤ) (st : Manager) : Health :=
  let i1 :=
    if st.timerState.isActive && !st.timerInterval then
      ["Timer is marked active but no interval is running"] else []
  let i2 :=
    if !st.timerState.isActive && st.timerInterval then
      ["Timer is marked inactive but interval is still running"] else []
  let i3 := if maxErrors ≤ st.errorCount then ["Max error count reached"] else []
  let i4 :=
    if truthyOptInt st.lastBroadcast &&
        decide (60000 < now - st.lastBroadcast.getD 0) then
      ["No successful broadcast in last 60 seconds"] else []
  let issues := i1 ++ i2 ++ i3 ++ i4
  { healthy := issues.isEmpty, issues := issues }

/-- JavaScript truthiness test of the cooldown guard
`this.lastRecoveryAttempt && now - this.lastRecoveryAttempt < 30000`. -/
def recoveryCooldown (now : ℤ) (st : Manager) : Bool :=
  truthyOptInt st.lastRecoveryAttempt &&
    decide (now - st.lastRecoveryAttempt.getD 0 < 30000)

/-- `recover()`: inside the cooldown return `false` untouched;
otherwise stamp the attempt, clear any interval, zero the error
counter, restart when the state claims to be active with time left,
and return `true`. -/
def recover (bc : ℕ → Bool) (now : ℤ) (st : Manager) : Manager × Bool :=
  if recoveryCooldown now st then (st, false)
  else
    let st1 := { st with lastRecoveryAttempt := some now }
    let st2 := if st1.timerInterval then { st1 with timerInterval := false } else st1
    let st3 := { st2 with errorCount := 0 }
    let st4 :=
      if st3.timerState.isActive && st3.timerState.timeRemaining.gtZero then
        start bc now { st3 with timerState := { st3.timerState with isActive := false } }
      else st3
    (st4, true)

/-- The public operations quantified over by the reachability and
containment claims. -/
inductive Op where
  | opStart : Op
  | opStop : Op
  | opReset : JSNum → Op
  | opAddTime : JSNum → Op
  | opUpdateSettings : SettingsUpdate → Op
  | opRecover : Op
  | opGetState : Op
deriving Repr

/-- One public operation as a state transformer. -/
def step (bc : ℕ → Bool) (now : ℤ) (st : Manager) : Op → Manager
  | Op.opStart => start bc now st
  | Op.opStop => stop bc now st
  | Op.opReset t => reset bc now st t
  | Op.opAddTime s => addTime bc now st s
  | Op.opUpdateSettings u => updateSettings bc now st u
  | Op.opRecover => (recover bc now st).1
  | Op.opGetState => getState now st

/-- Run a timed trace of public operations. -/
def run (bc : ℕ → Bool) (st : Manager) : List (ℤ × Op) → Manager
  | [] => st
  | (now, op) :: rest => run bc (step bc now st op) rest

end TimerManager

/-- The persisted state blob written by `saveTimerState` in
`server.js`: the timer snapshot plus `lastSaved`. -/
structure Snapshot where
  timeRemaining : JSNum
  isActive : Bool
  settings : Settings
  lastSaved : ℤ
deriving DecidableEq, Repr

/-- `loadTimerState` from `server.js`, after the file has been read and
parsed successfully: reconcile the snapshot against the elapsed wall
clock and either resume or restore inactive. -/
def loadTimerState (bc : ℕ → Bool) (now : ℤ) (st : TimerManager.Manager)
    (snap : Snapshot) : TimerManager.Manager :=
  let timeSinceLastSave := now - snap.lastSaved
  if snap.isActive && decide (timeSinceLastSave < 5 * 60 * 1000) then
    let secondsElapsed : ℤ := Int.fdiv timeSinceLastSave 1000
    let adjustedTime :=
      JSNum.max0 (JSNum.sub snap.timeRemaining (JSNum.num secondsElapsed))
    let st1 := { st with timerState := { st.timerState with
        timeRemaining := adjustedTime, settings := snap.settings } }
    if adjustedTime.gtZero then TimerManager.start bc now st1 else st1
  else
    { st with timerState := { st.timerState with
        timeRemaining := snap.timeRemaining, settings := snap.settings } }

/-- Tier lookup of `simulateSubscription` in `routes.js`: seconds per
unit, tier label and sub plan for a tier code, or the thrown
`"Invalid tier"` error. -/
def tierLookup (s : Settings) (tier : String) :
    Except String (JSNum × String × String) :=
  if tier = "1" then Except.ok (s.regularSubTime, "Tier 1", "1000")
  else if tier = "2" then Except.ok (s.tier2SubTime, "Tier 2", "2000")
  else if tier = "3" then Except.ok (s.tier3SubTime, "Tier 3", "3000")
  else if tier = "prime" then Except.ok (s.primeSubTime, "Prime", "Prime")
  else Except.error "Invalid tier"

/-- Type dispatch of `simulateSubscription`: message id, sub type and
total time (gifts multiply by the count), or the thrown
`"Invalid type"` error. -/
def typeLookup (timeToAdd : JSNum) (ty : String) (count : JSNum) :
    Except String (String × String × JSNum) :=
  if ty = "sub" then Except.ok ("sub", "subscription", timeToAdd)
  else if ty = "resub" then Except.ok ("resub", "resub", timeToAdd)
  else if ty = "gift" then Except.ok ("subgift", "gift", JSNum.mul timeToAdd count)
  else Except.error "Invalid type"

/-- `simulateSubscription` from `routes.js`: resolve tier and type,
add the total time to the timer, then broadcast the `subscription`
payload; returns the new manager state and the broadcast payload. -/
def simulateSubscription (bc : ℕ → Bool) (now : ℤ) (st : TimerManager.Manager)
    (username tier ty : String) (count : JSNum)
    (recipient : Option String) (months : Option JSNum) :
    Except String (TimerManager.Manager × Msg) := do
  let (timeToAdd, tierName, subPlan) ← tierLookup st.timerState.settings tier
  let (msgId, subType, totalTime) ← typeLookup timeToAdd ty count
  let st1 := TimerManager.addTime bc now st totalTime
  let recip := if ty = "gift" then recipient else none
  let mon := if ty = "resub" then months else none
  let payload := Msg.subscription username msgId subPlan tierName totalTime
    count subType recip mon
  let st2 := TimerManager.broadcast bc now st1 payload
  Except.ok (st2, payload)

/-- The `subgift` branch of the `usernotice` handler in `twitch.js`:
per-tier base time by sub plan (falling back to `giftSubTime`),
multiplied by the parsed gift count; the handler then calls `addTime`
and broadcasts a `subscription` payload carrying the same total. -/
def twitchSubgiftTime (s : Settings) (subPlan : String) (giftCount : ℕ) :
    JSNum × String :=
  let base :=
    if subPlan = "1000" then (s.regularSubTime, "Tier 1")
    else if subPlan = "2000" then (s.tier2SubTime, "Tier 2")
    else if subPlan = "3000" then (s.tier3SubTime, "Tier 3")
    else (s.giftSubTime, "Gift")
  (JSNum.mul base.1 (JSNum.num (giftCount : ℚ)), base.2)

/-- A concrete settings value used by the closed witnesses and
counterexamples (the repository's `types.js` defaults are not among
the sources; no claim depends on the default values). -/
def sampleSettings : Settings :=
  { regularSubTime := JSNum.num 60, tier2SubTime := JSNum.num 120
    tier3SubTime := JSNum.num 180, primeSubTime := JSNum.num 60
    giftSubTime := JSNum.num 60, timerSize := JSNum.num 48
    timerColor := "white", timerFont := "monospace"
    timerShadowColor := "black", timerShadowBlur := JSNum.num 4
    timerShadowOpacity := JSNum.num (1 / 2)
    timerShadowX := JSNum.num 0, timerShadowY := JSNum.num 0 }

/-- The wired manager at startup: fresh state with both callbacks
installed, as `server.js` does before any operation runs. -/
def wiredInit : TimerManager.Manager :=
  TimerManager.setSaveStateCallback
    (TimerManager.setBroadcastCallback (TimerManager.init sampleSettings))

/-- Oracle for a broadcast callback that never throws. -/
def bcOk : ℕ → Bool := fun _ => true

/-- Oracle for a broadcast callback that always throws. -/
def bcBad : ℕ → Bool := fun _ => false

/-- The kernel-friendly rational floor agrees with `Int.floor`. -/
theorem ratFloor_eq_floor (q : ℚ) : JSNum.ratFloor q = ⌊q⌋ := by
  rw [Rat.floor_def]
  exact Int.fdiv_eq_ediv q.num (Int.ofNat_nonneg q.den)

/-- Floored integer division by 1000 agrees with the rational floor of
the division, i.e. with `Math.floor(ms / 1000)`. -/
theorem fdiv_1000_eq_floor (a : ℤ) : Int.fdiv a 1000 = ⌊(a : ℚ) / 1000⌋ := by
  have h := Rat.floor_intCast_div_natCast a 1000
  have h2 : ((1000 : ℕ) : ℚ) = (1000 : ℚ) := by norm_num
  have h3 : ((1000 : ℕ) : ℤ) = (1000 : ℤ) := by norm_num
  rw [h2, h3] at h
  rw [h]
  exact Int.fdiv_eq_ediv a (by norm_num)

/-- The branch `if q ≤ 0 then 0 else q` implementing `Math.max(0, q)`
is the rational maximum. -/
theorem if_leZero_eq_max (q : ℚ) : (if q ≤ 0 then 0 else q) = max 0 q := by
  rcases le_or_lt q 0 with h | h
  · simp [h, max_eq_left h]
  · simp [not_le.2 h, max_eq_right h.le]

namespace TimerManager

/-- The delivery-independent portion of a manager state: everything
except the broadcast bookkeeping (`broadcastCallback`, `errorCount`,
`lastBroadcast`, `bcIdx`, `sent`) and the recovery stamp.  The
operations' effect on this portion is what the atomicity and frame
claims quantify over. -/
structure Core where
  timerState : TimerState
  timerInterval : Bool
  startTime : Option ℤ
  baseTimeRemaining : Option JSNum
  saveStateCallback : Bool
  saveCount : ℕ
deriving DecidableEq, Repr

/-- Project a manager state to its delivery-independent portion. -/
def Manager.core (st : Manager) : Core :=
  { timerState := st.timerState, timerInterval := st.timerInterval
    startTime := st.startTime, baseTimeRemaining := st.baseTimeRemaining
    saveStateCallback := st.saveStateCallback, saveCount := st.saveCount }

/-- `getCurrentTimeRemaining` reads only delivery-independent fields. -/
def coreGetCurrent (now : ℤ) (c : Core) : JSNum :=
  if !(c.timerState.isActive && truthyOptInt c.startTime &&
        JSNum.truthy (c.baseTimeRemaining.getD JSNum.nan)) then
    c.timerState.timeRemaining
  else
    let s := c.startTime.getD 0
    let elapsedSeconds : ℤ := Int.fdiv (now - s) 1000
    JSNum.max0 (JSNum.sub (c.baseTimeRemaining.getD JSNum.nan) (JSNum.num elapsedSeconds))

theorem core_getCurrent (now : ℤ) (st : Manager) :
    getCurrentTimeRemaining now st = coreGetCurrent now st.core := rfl

/-- The effect of `updateTimeRemaining` on the core. -/
def coreUpdateTime (now : ℤ) (c : Core) : Core :=
  if c.timerState.isActive then
    { c with timerState :=
        { c.timerState with timeRemaining := coreGetCurrent now c } }
  else c

theorem core_updateTime (now : ℤ) (st : Manager) :
    (updateTimeRemaining now st).core = coreUpdateTime now st.core := by
  unfold updateTimeRemaining coreUpdateTime
  by_cases h : st.timerState.isActive <;> simp [h, Manager.core, core_getCurrent]

theorem updateTime_core_timerState (now : ℤ) (st : Manager) :
    (updateTimeRemaining now st).timerState = (coreUpdateTime now st.core).timerState :=
  congrArg Core.timerState (core_updateTime now st)

@[simp] theorem coreUpdateTime_timerInterval (now : ℤ) (c : Core) :
    (coreUpdateTime now c).timerInterval = c.timerInterval := by
  unfold coreUpdateTime; split <;> rfl

@[simp] theorem coreUpdateTime_startTime (now : ℤ) (c : Core) :
    (coreUpdateTime now c).startTime = c.startTime := by
  unfold coreUpdateTime; split <;> rfl

@[simp] theorem coreUpdateTime_base (now : ℤ) (c : Core) :
    (coreUpdateTime now c).baseTimeRemaining = c.baseTimeRemaining := by
  unfold coreUpdateTime; split <;> rfl

@[simp] theorem coreUpdateTime_saveCB (now : ℤ) (c : Core) :
    (coreUpdateTime now c).saveStateCallback = c.saveStateCallback := by
  unfold coreUpdateTime; split <;> rfl

@[simp] theorem coreUpdateTime_saveCount (now : ℤ) (c : Core) :
    (coreUpdateTime now c).saveCount = c.saveCount := by
  unfold coreUpdateTime; split <;> rfl

@[simp] theorem coreUpdateTime_settings (now : ℤ) (c : Core) :
    (coreUpdateTime now c).timerState.settings = c.timerState.settings := by
  unfold coreUpdateTime; split <;> rfl

@[simp] theorem coreUpdateTime_isActive (now : ℤ) (c : Core) :
    (coreUpdateTime now c).timerState.isActive = c.timerState.isActive := by
  unfold coreUpdateTime; split <;> rfl

theorem updateTime_timerInterval (now : ℤ) (st : Manager) :
    (updateTimeRemaining now st).timerInterval = st.timerInterval := by
  unfold updateTimeRemaining; split <;> rfl

theorem updateTime_startTime (now : ℤ) (st : Manager) :
    (updateTimeRemaining now st).startTime = st.startTime := by
  unfold updateTimeRemaining; split <;> rfl

theorem updateTime_base (now : ℤ) (st : Manager) :
    (updateTimeRemaining now st).baseTimeRemaining = st.baseTimeRemaining := by
  unfold updateTimeRemaining; split <;> rfl

theorem updateTime_saveCB (now : ℤ) (st : Manager) :
    (updateTimeRemaining now st).saveStateCallback = st.saveStateCallback := by
  unfold updateTimeRemaining; split <;> rfl

theorem updateTime_saveCount (now : ℤ) (st : Manager) :
    (updateTimeRemaining now st).saveCount = st.saveCount := by
  unfold updateTimeRemaining; split <;> rfl

/-- `broadcast` never touches the delivery-independent portion. -/
theorem core_broadcast (bc : ℕ → Bool) (now : ℤ) (st : Manager) (msg : Msg) :
    (broadcast bc now st msg).core = st.core := by
  unfold broadcast runCallback
  split
  · split
    · rfl
    · split <;> rfl
  · rfl

theorem broadcast_timerState (bc : ℕ → Bool) (now : ℤ) (st : Manager) (msg : Msg) :
    (broadcast bc now st msg).timerState = st.timerState :=
  congrArg Core.timerState (core_broadcast bc now st msg)

theorem broadcast_timerInterval (bc : ℕ → Bool) (now : ℤ) (st : Manager) (msg : Msg) :
    (broadcast bc now st msg).timerInterval = st.timerInterval :=
  congrArg Core.timerInterval (core_broadcast bc now st msg)

theorem broadcast_startTime (bc : ℕ → Bool) (now : ℤ) (st : Manager) (msg : Msg) :
    (broadcast bc now st msg).startTime = st.startTime :=
  congrArg Core.startTime (core_broadcast bc now st msg)

theorem broadcast_base (bc : ℕ → Bool) (now : ℤ) (st : Manager) (msg : Msg) :
    (broadcast bc now st msg).baseTimeRemaining = st.baseTimeRemaining :=
  congrArg Core.baseTimeRemaining (core_broadcast bc now st msg)

theorem broadcast_saveCB (bc : ℕ → Bool) (now : ℤ) (st : Manager) (msg : Msg) :
    (broadcast bc now st msg).saveStateCallback = st.saveStateCallback :=
  congrArg Core.saveStateCallback (core_broadcast bc now st msg)

theorem broadcast_saveCount (bc : ℕ → Bool) (now : ℤ) (st : Manager) (msg : Msg) :
    (broadcast bc now st msg).saveCount = st.saveCount :=
  congrArg Core.saveCount (core_broadcast bc now st msg)

/-- The effect of `stop` on the core. -/
def coreStop (now : ℤ) (c : Core) : Core :=
  let c1 := if c.timerInterval then { c with timerInterval := false } else c
  let c2 := coreUpdateTime now c1
  { c2 with timerState := { c2.timerState with isActive := false }
            startTime := none, baseTimeRemaining := none }

theorem core_stop (bc : ℕ → Bool) (now : ℤ) (st : Manager) :
    (stop bc now st).core = coreStop now st.core := by
  unfold stop coreStop
  by_cases h : st.timerInterval <;>
    simp [h, Manager.core, broadcast_timerState, broadcast_timerInterval,
      broadcast_startTime, broadcast_base, broadcast_saveCB, broadcast_saveCount,
      updateTime_core_timerState, updateTime_timerInterval, updateTime_startTime,
      updateTime_base, updateTime_saveCB, updateTime_saveCount]

/-- The effect of `start` on the core. -/
def coreStart (now : ℤ) (c : Core) : Core :=
  let c1 := coreStop now c
  { c1 with timerState := { c1.timerState with isActive := true }
            startTime := some now
            baseTimeRemaining := some c1.timerState.timeRemaining
            timerInterval := true }

theorem stop_core_timerState (bc : ℕ → Bool) (now : ℤ) (st : Manager) :
    (stop bc now st).timerState = (coreStop now st.core).timerState :=
  congrArg Core.timerState (core_stop bc now st)

theorem stop_core_saveCB (bc : ℕ → Bool) (now : ℤ) (st : Manager) :
    (stop bc now st).saveStateCallback = (coreStop now st.core).saveStateCallback :=
  congrArg Core.saveStateCallback (core_stop bc now st)

theorem stop_core_saveCount (bc : ℕ → Bool) (now : ℤ) (st : Manager) :
    (stop bc now st).saveCount = (coreStop now st.core).saveCount :=
  congrArg Core.saveCount (core_stop bc now st)

theorem core_start (bc : ℕ → Bool) (now : ℤ) (st : Manager) :
    (start bc now st).core = coreStart now st.core := by
  unfold start coreStart
  simp [Manager.core, broadcast_timerState, broadcast_timerInterval,
    broadcast_startTime, broadcast_base, broadcast_saveCB, broadcast_saveCount,
    stop_core_timerState, stop_core_saveCB, stop_core_saveCount]

/-- `stop` on an inactive state only clears the interval and the
ephemeral fields; the stored time is untouched. -/
theorem coreStop_inactive (now : ℤ) (c : Core) (h : c.timerState.isActive = false) :
    coreStop now c
      = { c with timerState := { c.timerState with isActive := false }
                 timerInterval := false, startTime := none
                 baseTimeRemaining := none } := by
  unfold coreStop coreUpdateTime
  by_cases hti : c.timerInterval <;> simp [hti, h]

/-- `start` on an inactive state marks it active, stamps the start
time, re-bases on the current stored time and schedules the ticker. -/
theorem coreStart_inactive (now : ℤ) (c : Core) (h : c.timerState.isActive = false) :
    coreStart now c
      = { c with timerState := { c.timerState with isActive := true }
                 timerInterval := true, startTime := some now
                 baseTimeRemaining := some c.timerState.timeRemaining } := by
  unfold coreStart
  rw [coreStop_inactive now c h]

/-- The effect of `reset` on the core. -/
def coreReset (now : ℤ) (c : Core) (time : JSNum) : Core :=
  let c1 := coreStop now c
  { c1 with timerState := { c1.timerState with
      timeRemaining := JSNum.max0 (JSNum.floor time) } }

theorem stop_core_timerInterval (bc : ℕ → Bool) (now : ℤ) (st : Manager) :
    (stop bc now st).timerInterval = (coreStop now st.core).timerInterval :=
  congrArg Core.timerInterval (core_stop bc now st)

theorem stop_core_startTime (bc : ℕ → Bool) (now : ℤ) (st : Manager) :
    (stop bc now st).startTime = (coreStop now st.core).startTime :=
  congrArg Core.startTime (core_stop bc now st)

theorem stop_core_base (bc : ℕ → Bool) (now : ℤ) (st : Manager) :
    (stop bc now st).baseTimeRemaining = (coreStop now st.core).baseTimeRemaining :=
  congrArg Core.baseTimeRemaining (core_stop bc now st)

theorem core_reset (bc : ℕ → Bool) (now : ℤ) (st : Manager) (time : JSNum) :
    (reset bc now st time).core = coreReset now st.core time := by
  unfold reset coreReset
  simp [Manager.core, broadcast_timerState, broadcast_timerInterval,
    broadcast_startTime, broadcast_base, broadcast_saveCB, broadcast_saveCount,
    stop_core_timerState, stop_core_saveCB, stop_core_saveCount,
    stop_core_timerInterval, stop_core_startTime, stop_core_base]

/-- The effect of `addTime` on the core. -/
def coreAddTime (now : ℤ) (c : Core) (seconds : JSNum) : Core :=
  if seconds.leZero then c
  else
    let c1 :=
      if c.timerState.isActive then
        let cu := coreUpdateTime now c
        let newBase := JSNum.add cu.timerState.timeRemaining (JSNum.floor seconds)
        { cu with baseTimeRemaining := some newBase }
      else c
    { c1 with timerState := { c1.timerState with
        timeRemaining := JSNum.add c1.timerState.timeRemaining (JSNum.floor seconds) } }

theorem core_addTime (bc : ℕ → Bool) (now : ℤ) (st : Manager) (seconds : JSNum) :
    (addTime bc now st seconds).core = coreAddTime now st.core seconds := by
  unfold addTime coreAddTime
  by_cases hg : seconds.leZero
  · simp [hg]
  · by_cases ha : st.timerState.isActive <;>
      simp [hg, ha, Manager.core, broadcast_timerState, broadcast_timerInterval,
        broadcast_startTime, broadcast_base, broadcast_saveCB, broadcast_saveCount,
        updateTime_core_timerState, updateTime_timerInterval, updateTime_startTime,
        updateTime_base, updateTime_saveCB, updateTime_saveCount]

/-- The effect of `updateSettings` on the core: merge the settings and
bump the save counter when a save hook is installed. -/
def coreUpdateSettings (c : Core) (u : SettingsUpdate) : Core :=
  let c1 := { c with timerState := { c.timerState with
      settings := applySettings c.timerState.settings u } }
  if c1.saveStateCallback then { c1 with saveCount := c1.saveCount + 1 } else c1

theorem core_updateSettings (bc : ℕ → Bool) (now : ℤ) (st : Manager)
    (u : SettingsUpdate) :
    (updateSettings bc now st u).core = coreUpdateSettings st.core u := by
  unfold updateSettings coreUpdateSettings
  by_cases h2 : u.timerSize.isNumber && (u.timerSize.asNum).geZero <;>
    by_cases h3 : stylingUpdated u <;>
      by_cases h4 : st.saveStateCallback <;>
        simp [h2, h3, h4, Manager.core, broadcast_timerState,
          broadcast_timerInterval, broadcast_startTime, broadcast_base,
          broadcast_saveCB, broadcast_saveCount]

end TimerManager

/-!
Claim theorems.  Each claim of the specification audit is settled by
exactly one theorem below; closed counterexample and failing-input
theorems evaluate the embedded source on explicit concrete inputs.
-/

/-- C1 (failing input): the claim says that for an active timer,
`addTime(seconds)` re-bases the ephemeral base so that the remaining
time reported immediately afterwards equals the reconciled remaining
time plus `floor(seconds)` — no jump.  In the source, `addTime` sets
`baseTimeRemaining = timeRemaining + floor(seconds)` after reconciling
`timeRemaining`, but leaves `startTime` untouched, so the already
elapsed time is subtracted a second time by the very next read.
Concretely: a timer started at wall-clock 1 000 000 ms with 100 s
remaining receives `addTime(10)` 50 s later.  The stored value becomes
60 s (= 50 reconciled + 10 added) but `getCurrentTimeRemaining` /
`getState` at the same instant report 10 s — the countdown jumps down
by the 50 elapsed seconds instead of continuing from 60. -/
theorem claim_C1_addTime_rebase_failing_input :
    (TimerManager.start bcOk 1000000
        (TimerManager.reset bcOk 1000000 wiredInit (JSNum.num 100))).timerState.timeRemaining
        = JSNum.num 100 ∧
    (TimerManager.addTime bcOk 1050000
        (TimerManager.start bcOk 1000000
          (TimerManager.reset bcOk 1000000 wiredInit (JSNum.num 100)))
        (JSNum.num 10)).timerState.timeRemaining = JSNum.num 60 ∧
    (TimerManager.addTime bcOk 1050000
        (TimerManager.start bcOk 1000000
          (TimerManager.reset bcOk 1000000 wiredInit (JSNum.num 100)))
        (JSNum.num 10)).baseTimeRemaining = some (JSNum.num 60) ∧
    (TimerManager.addTime bcOk 1050000
        (TimerManager.start bcOk 1000000
          (TimerManager.reset bcOk 1000000 wiredInit (JSNum.num 100)))
        (JSNum.num 10)).startTime = some 1000000 ∧
    TimerManager.getCurrentTimeRemaining 1050000
      (TimerManager.addTime bcOk 1050000
        (TimerManager.start bcOk 1000000
          (TimerManager.reset bcOk 1000000 wiredInit (JSNum.num 100)))
        (JSNum.num 10)) = JSNum.num 10 ∧
    (TimerManager.getState 1050000
      (TimerManager.addTime bcOk 1050000
        (TimerManager.start bcOk 1000000
          (TimerManager.reset bcOk 1000000 wiredInit (JSNum.num 100)))
        (JSNum.num 10))).timerState.timeRemaining = JSNum.num 10 := by
  refine ⟨?_, ?_, ?_, ?_, ?_, ?_⟩ <;>
    norm_num [TimerManager.addTime, TimerManager.start, TimerManager.reset,
      TimerManager.stop, TimerManager.broadcast, TimerManager.runCallback,
      TimerManager.updateTimeRemaining, TimerManager.getCurrentTimeRemaining,
      TimerManager.getState, wiredInit, TimerManager.init,
      TimerManager.setBroadcastCallback, TimerManager.setSaveStateCallback,
      sampleSettings, bcOk, JSNum.leZero, JSNum.geZero, JSNum.add, JSNum.sub,
      JSNum.neg, JSNum.max0, JSNum.floor, JSNum.ratFloor, JSNum.truthy,
      truthyOptInt, TimerManager.maxErrors, Int.fdiv]

/-- C4 (failing input): the claim says `addTime(seconds)` is a logged
no-op for every non-positive or non-finite input, including +Infinity
and NaN.  The source guard is `typeof seconds !== "number" || seconds
<= 0`: it does reject 0 and -5 (the state is bit-for-bit unchanged),
but `NaN <= 0` and `Infinity <= 0` are both false in JavaScript, so
NaN and +Infinity pass the guard and corrupt `timeRemaining` (57600 s
becomes NaN, resp. Infinity) instead of leaving it unchanged. -/
theorem claim_C4_nonfinite_addTime_failing_input :
    TimerManager.addTime bcOk 7 wiredInit (JSNum.num (-5)) = wiredInit ∧
    TimerManager.addTime bcOk 7 wiredInit (JSNum.num 0) = wiredInit ∧
    wiredInit.timerState.timeRemaining = JSNum.num 57600 ∧
    (TimerManager.addTime bcOk 7 wiredInit JSNum.posInf).timerState.timeRemaining
      = JSNum.posInf ∧
    (TimerManager.addTime bcOk 7 wiredInit JSNum.nan).timerState.timeRemaining
      = JSNum.nan := by
  refine ⟨?_, ?_, ?_, ?_, ?_⟩ <;>
    norm_num [TimerManager.addTime, TimerManager.broadcast,
      TimerManager.runCallback, TimerManager.updateTimeRemaining,
      TimerManager.getCurrentTimeRemaining, wiredInit, TimerManager.init,
      TimerManager.setBroadcastCallback, TimerManager.setSaveStateCallback,
      sampleSettings, bcOk, JSNum.leZero, JSNum.add, JSNum.floor,
      JSNum.ratFloor, TimerManager.maxErrors]

/-- C7 (failing input): the claim states the invariant that in every
state reachable by the public operations the stored `timeRemaining`
and the remaining time reported to callers are ≥ 0.  A single public
operation from the initial state violates it: `addTime(NaN)` passes
the guard (`NaN <= 0` is false) and sets `timeRemaining` to NaN, for
which `NaN >= 0` is false, and `getCurrentTimeRemaining` reports that
same NaN to callers. -/
theorem claim_C7_invariant_failing_input :
    (TimerManager.run bcOk wiredInit
        [(7, TimerManager.Op.opAddTime JSNum.nan)]).timerState.timeRemaining
      = JSNum.nan ∧
    JSNum.geZero
      (TimerManager.run bcOk wiredInit
        [(7, TimerManager.Op.opAddTime JSNum.nan)]).timerState.timeRemaining
      = false ∧
    TimerManager.getCurrentTimeRemaining 8
      (TimerManager.run bcOk wiredInit
        [(7, TimerManager.Op.opAddTime JSNum.nan)]) = JSNum.nan := by
  refine ⟨?_, ?_, ?_⟩ <;>
    norm_num [TimerManager.run, TimerManager.step, TimerManager.addTime,
      TimerManager.broadcast, TimerManager.runCallback,
      TimerManager.updateTimeRemaining, TimerManager.getCurrentTimeRemaining,
      wiredInit, TimerManager.init, TimerManager.setBroadcastCallback,
      TimerManager.setSaveStateCallback, sampleSettings, bcOk, JSNum.leZero,
      JSNum.geZero, JSNum.add, JSNum.floor, JSNum.ratFloor, JSNum.truthy,
      truthyOptInt, TimerManager.maxErrors]


/-- The adjusted remaining time of the reconciliation claim:
`max(0, timeRemaining - floor(elapsedMs / 1000))`. -/
def adjustedRemaining (r : ℚ) (elapsedMs : ℤ) : ℚ :=
  max 0 (r - ⌊(elapsedMs : ℚ) / 1000⌋)

/-- C2: startup reconciliation.  Starting from the fresh (inactive,
no-ticker) manager, for a snapshot with `isActive` and elapsed time
under 5 minutes the loader sets `timeRemaining` to
`max(0, snapshot.timeRemaining - floor(elapsedMs/1000))`, loads the
snapshot's settings, and calls `start()` exactly when that adjusted
value is positive (capturing `startTime = now` and re-basing on the
adjusted value); for every other snapshot it restores `timeRemaining`
and `settings` verbatim and leaves the timer inactive — a stale
snapshot is never auto-started. -/
theorem claim_C2_startup_reconciliation (bc : ℕ → Bool) (now : ℤ)
    (st : TimerManager.Manager) (snap : Snapshot) (r : ℚ)
    (hinact : st.timerState.isActive = false)
    (hni : st.timerInterval = false)
    (htr : snap.timeRemaining = JSNum.num r) :
    (snap.isActive = true → now - snap.lastSaved < 300000 →
      (loadTimerState bc now st snap).timerState.timeRemaining
          = JSNum.num (adjustedRemaining r (now - snap.lastSaved)) ∧
      (loadTimerState bc now st snap).timerState.settings = snap.settings ∧
      (loadTimerState bc now st snap).timerState.isActive
          = decide (0 < adjustedRemaining r (now - snap.lastSaved)) ∧
      (loadTimerState bc now st snap).timerInterval
          = decide (0 < adjustedRemaining r (now - snap.lastSaved)) ∧
      (0 < adjustedRemaining r (now - snap.lastSaved) →
        (loadTimerState bc now st snap).startTime = some now ∧
        (loadTimerState bc now st snap).baseTimeRemaining
          = some (JSNum.num (adjustedRemaining r (now - snap.lastSaved))))) ∧
    ((snap.isActive = false ∨ 300000 ≤ now - snap.lastSaved) →
      loadTimerState bc now st snap
        = { st with timerState := { st.timerState with
            timeRemaining := snap.timeRemaining, settings := snap.settings } }) := by
  have hadj : JSNum.max0 (JSNum.sub snap.timeRemaining
      (JSNum.num (Int.fdiv (now - snap.lastSaved) 1000)))
      = JSNum.num (adjustedRemaining r (now - snap.lastSaved)) := by
    rw [htr]
    simp only [JSNum.sub, JSNum.neg, JSNum.add, JSNum.max0, adjustedRemaining,
      fdiv_1000_eq_floor, if_leZero_eq_max]
    rw [← sub_eq_add_neg]
  constructor
  · intro hact hel
    unfold loadTimerState
    have hcond : (snap.isActive && decide (now - snap.lastSaved < 5 * 60 * 1000)) = true := by
      simp only [hact, Bool.true_and, decide_eq_true_eq]
      omega
    simp only [hcond, if_true, hadj]
    by_cases hpos : 0 < adjustedRemaining r (now - snap.lastSaved)
    · have hgt : (JSNum.num (adjustedRemaining r (now - snap.lastSaved))).gtZero = true := by
        simp [JSNum.gtZero, hpos]
      simp only [hgt, if_true]
      set st1 : TimerManager.Manager := { st with timerState := { st.timerState with
        timeRemaining := JSNum.num (adjustedRemaining r (now - snap.lastSaved))
        settings := snap.settings } } with hst1
      have h1 : st1.timerState.isActive = false := hinact
      have hcs : TimerManager.coreStart now st1.core
          = { st1.core with
              timerState := { st1.core.timerState with isActive := true }
              timerInterval := true, startTime := some now
              baseTimeRemaining := some st1.core.timerState.timeRemaining } :=
        TimerManager.coreStart_inactive now st1.core h1
      have hcore := (TimerManager.core_start bc now st1).trans hcs
      refine ⟨?_, ?_, ?_, ?_, fun _ => ⟨?_, ?_⟩⟩
      · show (TimerManager.start bc now st1).core.timerState.timeRemaining = _
        rw [hcore]
        rfl
      · show (TimerManager.start bc now st1).core.timerState.settings = _
        rw [hcore]
        rfl
      · show (TimerManager.start bc now st1).core.timerState.isActive = _
        rw [hcore]
        exact (decide_eq_true hpos).symm
      · show (TimerManager.start bc now st1).core.timerInterval = _
        rw [hcore]
        exact (decide_eq_true hpos).symm
      · show (TimerManager.start bc now st1).core.startTime = _
        rw [hcore]
      · show (TimerManager.start bc now st1).core.baseTimeRemaining = _
        rw [hcore]
        rfl
    · have hgt : (JSNum.num (adjustedRemaining r (now - snap.lastSaved))).gtZero = false := by
        simp [JSNum.gtZero]
        exact le_of_not_lt hpos
      simp only [hgt, if_false]
      exact ⟨rfl, rfl, by simp [hinact, hpos], by simp [hni, hpos], fun h => absurd h hpos⟩
  · intro hstale
    unfold loadTimerState
    have hcond : (snap.isActive && decide (now - snap.lastSaved < 5 * 60 * 1000)) = false := by
      rcases hstale with h | h
      · simp [h]
      · simp only [Bool.and_eq_false_iff, decide_eq_false_iff_not, not_lt]
        right
        omega
    simp only [hcond, if_false]
    rfl

/-- Witness for C2 at a concrete input: the spec's own reconciliation
example — snapshot `{timeRemaining: 100, isActive: true}` saved 30 s
ago resumes with 70 s remaining and is running; the same snapshot
saved 6 minutes ago is restored with 100 s, inactive. -/
theorem claim_C2_startup_reconciliation_witness :
    (loadTimerState bcOk 1030000 (TimerManager.init sampleSettings)
        { timeRemaining := JSNum.num 100, isActive := true
          settings := sampleSettings, lastSaved := 1000000 }).timerState.timeRemaining
      = JSNum.num 70 ∧
    (loadTimerState bcOk 1030000 (TimerManager.init sampleSettings)
        { timeRemaining := JSNum.num 100, isActive := true
          settings := sampleSettings, lastSaved := 1000000 }).timerState.isActive
      = true ∧
    (loadTimerState bcOk 1360000 (TimerManager.init sampleSettings)
        { timeRemaining := JSNum.num 100, isActive := true
          settings := sampleSettings, lastSaved := 1000000 }).timerState.timeRemaining
      = JSNum.num 100 ∧
    (loadTimerState bcOk 1360000 (TimerManager.init sampleSettings)
        { timeRemaining := JSNum.num 100, isActive := true
          settings := sampleSettings, lastSaved := 1000000 }).timerState.isActive
      = false := by
  have h1 := claim_C2_startup_reconciliation bcOk 1030000
    (TimerManager.init sampleSettings)
    { timeRemaining := JSNum.num 100, isActive := true
      settings := sampleSettings, lastSaved := 1000000 } 100 rfl rfl rfl
  have h2 := claim_C2_startup_reconciliation bcOk 1360000
    (TimerManager.init sampleSettings)
    { timeRemaining := JSNum.num 100, isActive := true
      settings := sampleSettings, lastSaved := 1000000 } 100 rfl rfl rfl
  have hadj1 : adjustedRemaining 100 (1030000 - 1000000) = 70 := by
    unfold adjustedRemaining
    norm_num
  have ha1 := h1.1 rfl (by norm_num)
  have ha2 := h2.2 (Or.inr (by norm_num))
  refine ⟨?_, ?_, ?_, ?_⟩
  · rw [ha1.1, hadj1]
  · rw [ha1.2.2.1, hadj1]
    norm_num
  · rw [ha2]
  · rw [ha2]
    exact rfl

/-- Broadcasting never touches the recovery stamp. -/
theorem broadcast_lastRecovery (bc : ℕ → Bool) (now : ℤ)
    (st : TimerManager.Manager) (msg : Msg) :
    (TimerManager.broadcast bc now st msg).lastRecoveryAttempt
      = st.lastRecoveryAttempt := by
  unfold TimerManager.broadcast TimerManager.runCallback
  split
  · split
    · rfl
    · split <;> rfl
  · rfl

/-- Reconciling the stored time never touches the recovery stamp. -/
theorem updateTime_lastRecovery (now : ℤ) (st : TimerManager.Manager) :
    (TimerManager.updateTimeRemaining now st).lastRecoveryAttempt
      = st.lastRecoveryAttempt := by
  unfold TimerManager.updateTimeRemaining
  split <;> rfl

/-- `stop` never touches the recovery stamp. -/
theorem stop_lastRecovery (bc : ℕ → Bool) (now : ℤ) (st : TimerManager.Manager) :
    (TimerManager.stop bc now st).lastRecoveryAttempt = st.lastRecoveryAttempt := by
  unfold TimerManager.stop
  by_cases h : st.timerInterval <;>
    simp [h, broadcast_lastRecovery, updateTime_lastRecovery]

/-- `start` never touches the recovery stamp. -/
theorem start_lastRecovery (bc : ℕ → Bool) (now : ℤ) (st : TimerManager.Manager) :
    (TimerManager.start bc now st).lastRecoveryAttempt = st.lastRecoveryAttempt := by
  unfold TimerManager.start
  simp [broadcast_lastRecovery, stop_lastRecovery]

/-- A `recover` call that proceeds stamps the attempt time. -/
theorem recover_stamps (bc : ℕ → Bool) (now : ℤ) (st : TimerManager.Manager)
    (h0 : TimerManager.recoveryCooldown now st = false) :
    (TimerManager.recover bc now st).1.lastRecoveryAttempt = some now ∧
    (TimerManager.recover bc now st).2 = true := by
  unfold TimerManager.recover
  simp only [h0, Bool.false_eq_true, if_false]
  constructor
  · simp [apply_ite (fun (m : TimerManager.Manager) => m.lastRecoveryAttempt),
      start_lastRecovery]
  · trivial

/-- A `recover` call inside the cooldown window is a rejected no-op. -/
theorem recover_cooldown_noop (bc : ℕ → Bool) (now : ℤ)
    (st : TimerManager.Manager)
    (h : TimerManager.recoveryCooldown now st = true) :
    TimerManager.recover bc now st = (st, false) := by
  unfold TimerManager.recover
  simp [h]

/-- C9: recovery cooldown.  A `recover()` call outside the cooldown
proceeds and reports completion; any second `recover()` call less than
30 seconds after it returns `false` and performs no recovery action at
all — the state (ticker, error counter, timer, stamp) is returned
bit-for-bit unchanged.  The hypothesis `0 < t1` reflects that
`Date.now()` is a positive epoch timestamp (at timestamp 0 the stamp
itself would be falsy in JavaScript). -/
theorem claim_C9_recover_cooldown (bc bc2 : ℕ → Bool) (t1 t2 : ℤ)
    (st : TimerManager.Manager)
    (h1 : 0 < t1)
    (h0 : TimerManager.recoveryCooldown t1 st = false)
    (h2 : t2 - t1 < 30000) :
    (TimerManager.recover bc t1 st).2 = true ∧
    TimerManager.recover bc2 t2 (TimerManager.recover bc t1 st).1
      = ((TimerManager.recover bc t1 st).1, false) := by
  have hs := recover_stamps bc t1 st h0
  refine ⟨hs.2, ?_⟩
  have hcool : TimerManager.recoveryCooldown t2 (TimerManager.recover bc t1 st).1 = true := by
    unfold TimerManager.recoveryCooldown
    rw [hs.1]
    simp only [truthyOptInt, Option.getD_some]
    have ht1 : t1 ≠ 0 := ne_of_gt h1
    simp [ht1]
    omega
  exact recover_cooldown_noop bc2 t2 (TimerManager.recover bc t1 st).1 hcool

/-- Witness for C9 at concrete inputs: a first recovery at t = 5 s on
the freshly wired manager proceeds and returns `true`; a second call
15 s later is rejected with `false` and leaves the state unchanged. -/
theorem claim_C9_recover_cooldown_witness :
    (TimerManager.recover bcOk 5000 wiredInit).2 = true ∧
    TimerManager.recover bcOk 20000 (TimerManager.recover bcOk 5000 wiredInit).1
      = ((TimerManager.recover bcOk 5000 wiredInit).1, false) :=
  claim_C9_recover_cooldown bcOk bcOk 5000 20000 wiredInit (by norm_num) rfl
    (by norm_num)

/-- The settings merge is the only `timerState` change `updateSettings`
makes on the core. -/
theorem coreUpdateSettings_timeRemaining (c : TimerManager.Core) (u : SettingsUpdate) :
    (TimerManager.coreUpdateSettings c u).timerState.timeRemaining
      = c.timerState.timeRemaining := by
  unfold TimerManager.coreUpdateSettings
  by_cases h : c.saveStateCallback <;> simp [h]

theorem coreUpdateSettings_isActive (c : TimerManager.Core) (u : SettingsUpdate) :
    (TimerManager.coreUpdateSettings c u).timerState.isActive
      = c.timerState.isActive := by
  unfold TimerManager.coreUpdateSettings
  by_cases h : c.saveStateCallback <;> simp [h]

theorem coreUpdateSettings_startTime (c : TimerManager.Core) (u : SettingsUpdate) :
    (TimerManager.coreUpdateSettings c u).startTime = c.startTime := by
  unfold TimerManager.coreUpdateSettings
  by_cases h : c.saveStateCallback <;> simp [h]

theorem coreUpdateSettings_base (c : TimerManager.Core) (u : SettingsUpdate) :
    (TimerManager.coreUpdateSettings c u).baseTimeRemaining
      = c.baseTimeRemaining := by
  unfold TimerManager.coreUpdateSettings
  by_cases h : c.saveStateCallback <;> simp [h]

theorem coreUpdateSettings_timerInterval (c : TimerManager.Core) (u : SettingsUpdate) :
    (TimerManager.coreUpdateSettings c u).timerInterval = c.timerInterval := by
  unfold TimerManager.coreUpdateSettings
  by_cases h : c.saveStateCallback <;> simp [h]

theorem coreUpdateSettings_settings (c : TimerManager.Core) (u : SettingsUpdate) :
    (TimerManager.coreUpdateSettings c u).timerState.settings
      = TimerManager.applySettings c.timerState.settings u := by
  unfold TimerManager.coreUpdateSettings
  by_cases h : c.saveStateCallback <;> simp [h]

/-- C10: frame property of `updateSettings`.  For every partial input
(valid or not) and every broadcast outcome, `updateSettings` leaves
`timeRemaining`, `isActive`, the ephemeral start fields and the tick
scheduler untouched — within `timerState` only the `settings`
sub-record may change. -/
theorem claim_C10_updateSettings_frame (bc : ℕ → Bool) (now : ℤ)
    (st : TimerManager.Manager) (u : SettingsUpdate) :
    (TimerManager.updateSettings bc now st u).timerState.timeRemaining
        = st.timerState.timeRemaining ∧
    (TimerManager.updateSettings bc now st u).timerState.isActive
        = st.timerState.isActive ∧
    (TimerManager.updateSettings bc now st u).startTime = st.startTime ∧
    (TimerManager.updateSettings bc now st u).baseTimeRemaining
        = st.baseTimeRemaining ∧
    (TimerManager.updateSettings bc now st u).timerInterval = st.timerInterval := by
  have h := TimerManager.core_updateSettings bc now st u
  refine ⟨?_, ?_, ?_, ?_, ?_⟩
  · show (TimerManager.updateSettings bc now st u).core.timerState.timeRemaining = _
    rw [h, coreUpdateSettings_timeRemaining]
    rfl
  · show (TimerManager.updateSettings bc now st u).core.timerState.isActive = _
    rw [h, coreUpdateSettings_isActive]
    rfl
  · show (TimerManager.updateSettings bc now st u).core.startTime = _
    rw [h, coreUpdateSettings_startTime]
    rfl
  · show (TimerManager.updateSettings bc now st u).core.baseTimeRemaining = _
    rw [h, coreUpdateSettings_base]
    rfl
  · show (TimerManager.updateSettings bc now st u).core.timerInterval = _
    rw [h, coreUpdateSettings_timerInterval]
    rfl

/-- C8: atomicity under delivery failure.  For each state-changing
operation (`start`, `stop`, `reset`, `addTime`, `updateSettings`) the
delivery-independent portion of the resulting state — the timer state,
the scheduler flag, the ephemeral start fields and the save counter —
is the same whatever the injected broadcast capability does, throwing
included: the mutation is retained and the failure never reaches the
operation's caller (each operation is a total state transformer whose
only fallible call sites are wrapped as in the source's `try`/`catch`
inside `broadcast`). -/
theorem claim_C8_broadcast_failure_atomicity (bc bc2 : ℕ → Bool) (now : ℤ)
    (st : TimerManager.Manager) (t s : JSNum) (u : SettingsUpdate) :
    (TimerManager.start bc now st).core = (TimerManager.start bc2 now st).core ∧
    (TimerManager.stop bc now st).core = (TimerManager.stop bc2 now st).core ∧
    (TimerManager.reset bc now st t).core = (TimerManager.reset bc2 now st t).core ∧
    (TimerManager.addTime bc now st s).core
        = (TimerManager.addTime bc2 now st s).core ∧
    (TimerManager.updateSettings bc now st u).core
        = (TimerManager.updateSettings bc2 now st u).core :=
  ⟨(TimerManager.core_start bc now st).trans (TimerManager.core_start bc2 now st).symm,
   (TimerManager.core_stop bc now st).trans (TimerManager.core_stop bc2 now st).symm,
   (TimerManager.core_reset bc now st t).trans
     (TimerManager.core_reset bc2 now st t).symm,
   (TimerManager.core_addTime bc now st s).trans
     (TimerManager.core_addTime bc2 now st s).symm,
   (TimerManager.core_updateSettings bc now st u).trans
     (TimerManager.core_updateSettings bc2 now st u).symm⟩

/-- A field supplied as a number (the `typeof v === "number"` test). -/
def suppliedNumber : JSVal → Option JSNum
  | JSVal.numv n => some n
  | _ => none

/-- A field supplied as a string (the `typeof v === "string"` test). -/
def suppliedString : JSVal → Option String
  | JSVal.strv s => some s
  | _ => none

/-- Acceptance rule of the per-tier times, `timerSize` and
`timerShadowBlur`: supplied as a number with value `>= 0` (this admits
`+Infinity`; NaN is rejected because `NaN >= 0` is false). -/
def acceptedNonneg (v : JSVal) : Option JSNum :=
  (suppliedNumber v).filter JSNum.geZero

/-- Acceptance rule of `timerShadowOpacity`: supplied as a number with
`0 <= value <= 1`. -/
def acceptedUnitInterval (v : JSVal) : Option JSNum :=
  (suppliedNumber v).filter (fun n => n.geZero && n.leOne)

/-- The field-by-field merge of the amended settings-validation claim:
each accepted field replaces the prior value, every unsupplied or
rejected field keeps it; `timerShadowX`/`timerShadowY` are accepted
whenever supplied as a number, with no range check at all. -/
def specSettingsMerge (s0 : Settings) (u : SettingsUpdate) : Settings :=
  { regularSubTime := (acceptedNonneg u.regularSubTime).getD s0.regularSubTime
    tier2SubTime := (acceptedNonneg u.tier2SubTime).getD s0.tier2SubTime
    tier3SubTime := (acceptedNonneg u.tier3SubTime).getD s0.tier3SubTime
    primeSubTime := (acceptedNonneg u.primeSubTime).getD s0.primeSubTime
    giftSubTime := (acceptedNonneg u.giftSubTime).getD s0.giftSubTime
    timerSize := (acceptedNonneg u.timerSize).getD s0.timerSize
    timerColor := (suppliedString u.timerColor).getD s0.timerColor
    timerFont := (suppliedString u.timerFont).getD s0.timerFont
    timerShadowColor := (suppliedString u.timerShadowColor).getD s0.timerShadowColor
    timerShadowBlur := (acceptedNonneg u.timerShadowBlur).getD s0.timerShadowBlur
    timerShadowOpacity :=
      (acceptedUnitInterval u.timerShadowOpacity).getD s0.timerShadowOpacity
    timerShadowX := (suppliedNumber u.timerShadowX).getD s0.timerShadowX
    timerShadowY := (suppliedNumber u.timerShadowY).getD s0.timerShadowY }

theorem updNonneg_eq_spec (cur : JSNum) (v : JSVal) :
    TimerManager.updNonneg cur v = (acceptedNonneg v).getD cur := by
  cases v with
  | undef => rfl
  | strv s => rfl
  | numv n =>
      by_cases h : n.geZero <;>
        simp [TimerManager.updNonneg, acceptedNonneg, suppliedNumber,
          JSVal.isNumber, JSVal.asNum, Option.filter, h]

theorem updOpacity_eq_spec (cur : JSNum) (v : JSVal) :
    TimerManager.updOpacity cur v = (acceptedUnitInterval v).getD cur := by
  cases v with
  | undef => rfl
  | strv s => rfl
  | numv n =>
      by_cases h : n.geZero && n.leOne <;>
        simp only [TimerManager.updOpacity, acceptedUnitInterval, suppliedNumber,
          JSVal.isNumber, JSVal.asNum, Option.filter, h, Bool.true_and,
          Bool.false_and, if_true, if_false, Option.getD_some, Option.getD_none]
      simp_all

theorem updAnyNum_eq_spec (cur : JSNum) (v : JSVal) :
    TimerManager.updAnyNum cur v = (suppliedNumber v).getD cur := by
  cases v <;> rfl

theorem updStr_eq_spec (cur : String) (v : JSVal) :
    TimerManager.updStr cur v = (suppliedString v).getD cur := by
  cases v <;> rfl

/-- The source's interleaved field-by-field merge coincides with the
claim-level merge rule. -/
theorem applySettings_eq_spec (s : Settings) (u : SettingsUpdate) :
    TimerManager.applySettings s u = specSettingsMerge s u := by
  unfold TimerManager.applySettings specSettingsMerge
  simp only [updNonneg_eq_spec, updOpacity_eq_spec, updAnyNum_eq_spec,
    updStr_eq_spec]

/-- C5 (counterexample): the claim says every supplied numeric setting
is applied only if finite and non-negative.  The source checks
`timerShadowX`/`timerShadowY` only for `typeof === "number"` — a
negative shadow offset is applied — and the `>= 0` checks on the other
numeric fields admit `+Infinity`.  Concretely,
`updateSettings({timerShadowX: -5, regularSubTime: Infinity})` applies
both values even though `-5 >= 0` is false and Infinity is not
finite. -/
theorem claim_C5_counterexample :
    (TimerManager.updateSettings bcOk 7 (TimerManager.init sampleSettings)
        { SettingsUpdate.empty with
            timerShadowX := JSVal.numv (JSNum.num (-5))
            regularSubTime := JSVal.numv JSNum.posInf
          }).timerState.settings.timerShadowX = JSNum.num (-5) ∧
    (TimerManager.updateSettings bcOk 7 (TimerManager.init sampleSettings)
        { SettingsUpdate.empty with
            timerShadowX := JSVal.numv (JSNum.num (-5))
            regularSubTime := JSVal.numv JSNum.posInf
          }).timerState.settings.regularSubTime = JSNum.posInf ∧
    JSNum.geZero (JSNum.num (-5)) = false ∧
    sampleSettings.timerShadowX = JSNum.num 0 ∧
    sampleSettings.regularSubTime = JSNum.num 60 := by
  refine ⟨?_, ?_, ?_, rfl, rfl⟩ <;>
    norm_num [TimerManager.updateSettings, TimerManager.applySettings,
      TimerManager.updNonneg, TimerManager.updOpacity, TimerManager.updAnyNum,
      TimerManager.updStr, TimerManager.stylingUpdated, TimerManager.broadcast,
      TimerManager.runCallback, TimerManager.init, sampleSettings,
      SettingsUpdate.empty, JSVal.isNumber, JSVal.isString, JSVal.asNum,
      JSVal.asStr, JSNum.geZero, JSNum.leOne, bcOk, TimerManager.maxErrors]

/-- C5 (amended): `updateSettings` validates field-by-field and never
fails; each per-tier time, `timerSize` and `timerShadowBlur` is
applied exactly when supplied as a number `>= 0` (NaN rejected,
`+Infinity` accepted), `timerShadowOpacity` exactly when a number
within `[0,1]`, `timerShadowX`/`timerShadowY` whenever supplied as a
number (any sign), string styling fields whenever supplied as a
string; every other supplied value is silently ignored while the valid
fields of the same call are still applied, and every unsupplied or
rejected field keeps its prior value. -/
theorem claim_C5_amended_settings_validation (bc : ℕ → Bool) (now : ℤ)
    (st : TimerManager.Manager) (u : SettingsUpdate) :
    (TimerManager.updateSettings bc now st u).timerState.settings
      = specSettingsMerge st.timerState.settings u := by
  have h := TimerManager.core_updateSettings bc now st u
  have h2 : (TimerManager.updateSettings bc now st u).core.timerState.settings
      = TimerManager.applySettings st.core.timerState.settings u := by
    rw [h, coreUpdateSettings_settings]
  exact h2.trans (applySettings_eq_spec st.timerState.settings u)

/-- With the callback nulled out, `broadcast` is a no-op: the
capability is not invoked at all. -/
theorem broadcast_noCallback (bc : ℕ → Bool) (now : ℤ)
    (st : TimerManager.Manager) (msg : Msg)
    (h : st.broadcastCallback = false) :
    TimerManager.broadcast bc now st msg = st := by
  unfold TimerManager.broadcast
  simp [h]

theorem updateTime_broadcastCB (now : ℤ) (st : TimerManager.Manager) :
    (TimerManager.updateTimeRemaining now st).broadcastCallback
      = st.broadcastCallback := by
  unfold TimerManager.updateTimeRemaining
  split <;> rfl

theorem updateTime_errorCount (now : ℤ) (st : TimerManager.Manager) :
    (TimerManager.updateTimeRemaining now st).errorCount = st.errorCount := by
  unfold TimerManager.updateTimeRemaining
  split <;> rfl

theorem updateTime_bcIdx (now : ℤ) (st : TimerManager.Manager) :
    (TimerManager.updateTimeRemaining now st).bcIdx = st.bcIdx := by
  unfold TimerManager.updateTimeRemaining
  split <;> rfl

theorem updateTime_sent (now : ℤ) (st : TimerManager.Manager) :
    (TimerManager.updateTimeRemaining now st).sent = st.sent := by
  unfold TimerManager.updateTimeRemaining
  split <;> rfl

/-- With no callback installed, `stop` keeps the broadcast bookkeeping
untouched (nothing is invoked, counted or sent). -/
theorem stop_bookkeeping (bc : ℕ → Bool) (now : ℤ) (st : TimerManager.Manager)
    (h : st.broadcastCallback = false) :
    (TimerManager.stop bc now st).broadcastCallback = false ∧
    (TimerManager.stop bc now st).errorCount = st.errorCount ∧
    (TimerManager.stop bc now st).bcIdx = st.bcIdx ∧
    (TimerManager.stop bc now st).sent = st.sent := by
  unfold TimerManager.stop
  by_cases hti : st.timerInterval <;>
    rw [broadcast_noCallback] <;>
      simp [hti, h, updateTime_broadcastCB, updateTime_errorCount,
        updateTime_bcIdx, updateTime_sent]

/-- With no callback installed, `start` keeps the broadcast
bookkeeping untouched. -/
theorem start_bookkeeping (bc : ℕ → Bool) (now : ℤ) (st : TimerManager.Manager)
    (h : st.broadcastCallback = false) :
    (TimerManager.start bc now st).broadcastCallback = false ∧
    (TimerManager.start bc now st).errorCount = st.errorCount ∧
    (TimerManager.start bc now st).bcIdx = st.bcIdx ∧
    (TimerManager.start bc now st).sent = st.sent := by
  have hs := stop_bookkeeping bc now st h
  unfold TimerManager.start
  rw [broadcast_noCallback] <;>
    simp [hs.1, hs.2.1, hs.2.2.1, hs.2.2.2]

/-- With no callback installed, `reset` keeps the broadcast
bookkeeping untouched. -/
theorem reset_bookkeeping (bc : ℕ → Bool) (now : ℤ) (st : TimerManager.Manager)
    (t : JSNum) (h : st.broadcastCallback = false) :
    (TimerManager.reset bc now st t).broadcastCallback = false ∧
    (TimerManager.reset bc now st t).errorCount = st.errorCount ∧
    (TimerManager.reset bc now st t).bcIdx = st.bcIdx ∧
    (TimerManager.reset bc now st t).sent = st.sent := by
  have hs := stop_bookkeeping bc now st h
  unfold TimerManager.reset
  rw [broadcast_noCallback] <;>
    simp [hs.1, hs.2.1, hs.2.2.1, hs.2.2.2]

/-- With no callback installed, `addTime` keeps the broadcast
bookkeeping untouched. -/
theorem addTime_bookkeeping (bc : ℕ → Bool) (now : ℤ) (st : TimerManager.Manager)
    (s : JSNum) (h : st.broadcastCallback = false) :
    (TimerManager.addTime bc now st s).broadcastCallback = false ∧
    (TimerManager.addTime bc now st s).errorCount = st.errorCount ∧
    (TimerManager.addTime bc now st s).bcIdx = st.bcIdx ∧
    (TimerManager.addTime bc now st s).sent = st.sent := by
  unfold TimerManager.addTime
  by_cases hg : s.leZero
  · simp [hg, h]
  · by_cases ha : st.timerState.isActive <;>
      · rw [broadcast_noCallback] <;>
          simp [hg, ha, h, updateTime_broadcastCB, updateTime_errorCount,
            updateTime_bcIdx, updateTime_sent]

/-- With no callback installed, `updateSettings` keeps the broadcast
bookkeeping untouched. -/
theorem updateSettings_bookkeeping (bc : ℕ → Bool) (now : ℤ)
    (st : TimerManager.Manager) (u : SettingsUpdate)
    (h : st.broadcastCallback = false) :
    (TimerManager.updateSettings bc now st u).broadcastCallback = false ∧
    (TimerManager.updateSettings bc now st u).errorCount = st.errorCount ∧
    (TimerManager.updateSettings bc now st u).bcIdx = st.bcIdx ∧
    (TimerManager.updateSettings bc now st u).sent = st.sent := by
  unfold TimerManager.updateSettings
  by_cases h2 : u.timerSize.isNumber && (u.timerSize.asNum).geZero <;>
    by_cases h3 : TimerManager.stylingUpdated u <;>
      by_cases h4 : st.saveStateCallback <;>
        simp [h2, h3, h4, h, broadcast_noCallback]

/-- Helper: projections of the restart branch of `recover` when no
callback is installed. -/
theorem recover_ite_bcCB (bc : ℕ → Bool) (now : ℤ) (c : Prop) [Decidable c]
    (X Y : TimerManager.Manager)
    (hX : X.broadcastCallback = false) (hY : Y.broadcastCallback = false) :
    (if c then TimerManager.start bc now X else Y).broadcastCallback = false := by
  split
  · exact (start_bookkeeping bc now X hX).1
  · exact hY

theorem recover_ite_errorCount (bc : ℕ → Bool) (now : ℤ) (c : Prop) [Decidable c]
    (X Y : TimerManager.Manager)
    (hX : X.broadcastCallback = false) (hXe : X.errorCount = 0)
    (hYe : Y.errorCount = 0) :
    (if c then TimerManager.start bc now X else Y).errorCount = 0 := by
  split
  · rw [(start_bookkeeping bc now X hX).2.1, hXe]
  · exact hYe

theorem recover_ite_bcIdx (bc : ℕ → Bool) (now : ℤ) (c : Prop) [Decidable c]
    (X Y : TimerManager.Manager) (n : ℕ)
    (hX : X.broadcastCallback = false) (hXi : X.bcIdx = n) (hYi : Y.bcIdx = n) :
    (if c then TimerManager.start bc now X else Y).bcIdx = n := by
  split
  · rw [(start_bookkeeping bc now X hX).2.2.1, hXi]
  · exact hYi

theorem recover_ite_sent (bc : ℕ → Bool) (now : ℤ) (c : Prop) [Decidable c]
    (X Y : TimerManager.Manager) (l : List Msg)
    (hX : X.broadcastCallback = false) (hXs : X.sent = l) (hYs : Y.sent = l) :
    (if c then TimerManager.start bc now X else Y).sent = l := by
  split
  · rw [(start_bookkeeping bc now X hX).2.2.2, hXs]
  · exact hYs

/-- With no callback installed, `recover` keeps the callback cleared
and does not invoke or send anything, and it resets the error counter
to zero (the restart broadcasts are no-ops). -/
theorem recover_bookkeeping (bc : ℕ → Bool) (now : ℤ)
    (st : TimerManager.Manager) (h : st.broadcastCallback = false)
    (h0 : TimerManager.recoveryCooldown now st = false) :
    (TimerManager.recover bc now st).1.broadcastCallback = false ∧
    (TimerManager.recover bc now st).1.errorCount = 0 ∧
    (TimerManager.recover bc now st).1.bcIdx = st.bcIdx ∧
    (TimerManager.recover bc now st).1.sent = st.sent := by
  unfold TimerManager.recover
  simp only [h0, Bool.false_eq_true, if_false]
  by_cases hti : st.timerInterval <;>
    · refine ⟨?_, ?_, ?_, ?_⟩
      · exact recover_ite_bcCB bc now _ _ _ (by simp [hti, h]) (by simp [hti, h])
      · exact recover_ite_errorCount bc now _ _ _ (by simp [hti, h])
          (by simp [hti]) (by simp [hti])
      · exact recover_ite_bcIdx bc now _ _ _ st.bcIdx (by simp [hti, h])
          (by simp [hti]) (by simp [hti])
      · exact recover_ite_sent bc now _ _ _ st.sent (by simp [hti, h])
          (by simp [hti]) (by simp [hti])

/-- A run of `n` `addTime(1)` operations whose every broadcast-callback
invocation throws, from the freshly wired manager. -/
def c3FailRun : ℕ → TimerManager.Manager
  | 0 => wiredInit
  | n + 1 => TimerManager.addTime bcBad 2000000 (c3FailRun n) (JSNum.num 1)

/-- The state after `k` such failing operations: `k` seconds added,
`k` failed invocations counted, and the callback still installed while
`k < 10`. -/
def c3State (k : ℕ) (cb : Bool) : TimerManager.Manager :=
  { timerState := { timeRemaining := JSNum.num (57600 + (k : ℚ)), isActive := false
                    settings := sampleSettings }
    timerInterval := false, startTime := none, baseTimeRemaining := none
    broadcastCallback := cb, saveStateCallback := true
    errorCount := k, lastBroadcast := none, lastRecoveryAttempt := none
    bcIdx := k, sent := [], saveCount := 0 }

theorem c3Step (k : ℕ) (hk : k + 1 < 10) :
    TimerManager.addTime bcBad 2000000 (c3State k true) (JSNum.num 1)
      = c3State (k + 1) true := by
  have hdis : ¬ (TimerManager.maxErrors ≤ k + 1) := by
    unfold TimerManager.maxErrors
    omega
  norm_num [TimerManager.addTime, TimerManager.broadcast,
    TimerManager.runCallback, c3State, bcBad, JSNum.leZero, JSNum.add,
    JSNum.floor, JSNum.ratFloor, hdis]
  ring

theorem c3StepLast :
    TimerManager.addTime bcBad 2000000 (c3State 9 true) (JSNum.num 1)
      = c3State 10 false := by
  norm_num [TimerManager.addTime, TimerManager.broadcast,
    TimerManager.runCallback, c3State, bcBad, JSNum.leZero, JSNum.add,
    JSNum.floor, JSNum.ratFloor, TimerManager.maxErrors]

theorem c3FailRun_ten : c3FailRun 10 = c3State 10 false := by
  have h0 : c3FailRun 0 = c3State 0 true := by
    norm_num [c3FailRun, c3State, wiredInit, TimerManager.init,
      TimerManager.setBroadcastCallback, TimerManager.setSaveStateCallback]
  have h1 : c3FailRun 1 = c3State 1 true := by
    show TimerManager.addTime bcBad 2000000 (c3FailRun 0) (JSNum.num 1) = _
    rw [h0]
    exact c3Step 0 (by norm_num)
  have h2 : c3FailRun 2 = c3State 2 true := by
    show TimerManager.addTime bcBad 2000000 (c3FailRun 1) (JSNum.num 1) = _
    rw [h1]
    exact c3Step 1 (by norm_num)
  have h3 : c3FailRun 3 = c3State 3 true := by
    show TimerManager.addTime bcBad 2000000 (c3FailRun 2) (JSNum.num 1) = _
    rw [h2]
    exact c3Step 2 (by norm_num)
  have h4 : c3FailRun 4 = c3State 4 true := by
    show TimerManager.addTime bcBad 2000000 (c3FailRun 3) (JSNum.num 1) = _
    rw [h3]
    exact c3Step 3 (by norm_num)
  have h5 : c3FailRun 5 = c3State 5 true := by
    show TimerManager.addTime bcBad 2000000 (c3FailRun 4) (JSNum.num 1) = _
    rw [h4]
    exact c3Step 4 (by norm_num)
  have h6 : c3FailRun 6 = c3State 6 true := by
    show TimerManager.addTime bcBad 2000000 (c3FailRun 5) (JSNum.num 1) = _
    rw [h5]
    exact c3Step 5 (by norm_num)
  have h7 : c3FailRun 7 = c3State 7 true := by
    show TimerManager.addTime bcBad 2000000 (c3FailRun 6) (JSNum.num 1) = _
    rw [h6]
    exact c3Step 6 (by norm_num)
  have h8 : c3FailRun 8 = c3State 8 true := by
    show TimerManager.addTime bcBad 2000000 (c3FailRun 7) (JSNum.num 1) = _
    rw [h7]
    exact c3Step 7 (by norm_num)
  have h9 : c3FailRun 9 = c3State 9 true := by
    show TimerManager.addTime bcBad 2000000 (c3FailRun 8) (JSNum.num 1) = _
    rw [h8]
    exact c3Step 8 (by norm_num)
  show TimerManager.addTime bcBad 2000000 (c3FailRun 9) (JSNum.num 1) = _
  rw [h9]
  exact c3StepLast

/-- C3 (counterexample): after 10 consecutive broadcast failures the
engine nulls out the callback and `recover()` resets the error counter
— but, contrary to the claim, broadcasting is NOT re-enabled
afterwards: a subsequent `addTime` with a now-working capability still
does not invoke it (the invocation counter stays at 10 and nothing is
ever delivered), because `recover()` never restores the callback
reference. -/
theorem claim_C3_counterexample :
    (c3FailRun 10).errorCount = 10 ∧
    (c3FailRun 10).broadcastCallback = false ∧
    (c3FailRun 10).bcIdx = 10 ∧
    (TimerManager.isHealthy 2000001 (c3FailRun 10)).healthy = false ∧
    "Max error count reached" ∈ (TimerManager.isHealthy 2000001 (c3FailRun 10)).issues ∧
    (TimerManager.recover bcOk 2100000 (c3FailRun 10)).2 = true ∧
    (TimerManager.recover bcOk 2100000 (c3FailRun 10)).1.errorCount = 0 ∧
    (TimerManager.addTime bcOk 2100005
        (TimerManager.recover bcOk 2100000 (c3FailRun 10)).1
        (JSNum.num 5)).bcIdx = 10 ∧
    (TimerManager.addTime bcOk 2100005
        (TimerManager.recover bcOk 2100000 (c3FailRun 10)).1
        (JSNum.num 5)).sent = [] ∧
    (TimerManager.addTime bcOk 2100005
        (TimerManager.recover bcOk 2100000 (c3FailRun 10)).1
        (JSNum.num 5)).broadcastCallback = false := by
  rw [c3FailRun_ten]
  refine ⟨rfl, rfl, rfl, ?_, ?_, ?_, ?_, ?_, ?_, ?_⟩ <;>
    norm_num [c3State, TimerManager.addTime, TimerManager.recover,
      TimerManager.recoveryCooldown, TimerManager.start, TimerManager.stop,
      TimerManager.isHealthy, TimerManager.broadcast, TimerManager.runCallback,
      TimerManager.updateTimeRemaining, TimerManager.getCurrentTimeRemaining,
      sampleSettings, bcOk, JSNum.leZero, JSNum.gtZero, JSNum.add, JSNum.floor,
      JSNum.ratFloor, JSNum.truthy, truthyOptInt, TimerManager.maxErrors]

/-- C3 (amended): each failed callback invocation increments the error
counter and each successful one resets it to 0; reaching 10 nulls out
the callback; from then on `isHealthy()` reports unhealthy with the
max-error issue and no public operation invokes the capability or
delivers anything; a non-cooldown `recover()` resets the error counter
but does NOT re-enable broadcasting — the callback reference stays
cleared (only a fresh `setBroadcastCallback` wire-up would restore
it). -/
theorem claim_C3_amended_broadcast_backoff (bc : ℕ → Bool) (now : ℤ)
    (st : TimerManager.Manager) (msg : Msg) (op : TimerManager.Op) :
    (st.broadcastCallback = true → bc st.bcIdx = false →
      (TimerManager.broadcast bc now st msg).errorCount = st.errorCount + 1 ∧
      (10 ≤ st.errorCount + 1 →
        (TimerManager.broadcast bc now st msg).broadcastCallback = false)) ∧
    (st.broadcastCallback = true → bc st.bcIdx = true →
      (TimerManager.broadcast bc now st msg).errorCount = 0) ∧
    (st.broadcastCallback = false →
      TimerManager.broadcast bc now st msg = st) ∧
    (10 ≤ st.errorCount →
      "Max error count reached" ∈ (TimerManager.isHealthy now st).issues ∧
      (TimerManager.isHealthy now st).healthy = false) ∧
    (st.broadcastCallback = false →
      (TimerManager.step bc now st op).broadcastCallback = false ∧
      (TimerManager.step bc now st op).bcIdx = st.bcIdx ∧
      (TimerManager.step bc now st op).sent = st.sent) ∧
    (st.broadcastCallback = false → TimerManager.recoveryCooldown now st = false →
      (TimerManager.recover bc now st).1.errorCount = 0 ∧
      (TimerManager.recover bc now st).1.broadcastCallback = false) := by
  refine ⟨?_, ?_, ?_, ?_, ?_, ?_⟩
  · intro hcb hbc
    unfold TimerManager.broadcast TimerManager.runCallback
    simp [hcb, hbc, TimerManager.maxErrors]
    by_cases h9 : 9 ≤ st.errorCount <;> simp [h9]
  · intro hcb hbc
    unfold TimerManager.broadcast TimerManager.runCallback
    simp [hcb, hbc]
  · intro hcb
    exact broadcast_noCallback bc now st msg hcb
  · intro h10
    have hm : TimerManager.maxErrors ≤ st.errorCount := h10
    constructor
    · unfold TimerManager.isHealthy
      simp [hm]
    · unfold TimerManager.isHealthy
      simp [hm]
  · intro hcb
    cases op with
    | opStart =>
        exact ⟨(start_bookkeeping bc now st hcb).1,
          (start_bookkeeping bc now st hcb).2.2.1,
          (start_bookkeeping bc now st hcb).2.2.2⟩
    | opStop =>
        exact ⟨(stop_bookkeeping bc now st hcb).1,
          (stop_bookkeeping bc now st hcb).2.2.1,
          (stop_bookkeeping bc now st hcb).2.2.2⟩
    | opReset t =>
        exact ⟨(reset_bookkeeping bc now st t hcb).1,
          (reset_bookkeeping bc now st t hcb).2.2.1,
          (reset_bookkeeping bc now st t hcb).2.2.2⟩
    | opAddTime s =>
        exact ⟨(addTime_bookkeeping bc now st s hcb).1,
          (addTime_bookkeeping bc now st s hcb).2.2.1,
          (addTime_bookkeeping bc now st s hcb).2.2.2⟩
    | opUpdateSettings u =>
        exact ⟨(updateSettings_bookkeeping bc now st u hcb).1,
          (updateSettings_bookkeeping bc now st u hcb).2.2.1,
          (updateSettings_bookkeeping bc now st u hcb).2.2.2⟩
    | opRecover =>
        by_cases hcool : TimerManager.recoveryCooldown now st
        · have h := recover_cooldown_noop bc now st hcool
          rw [TimerManager.step, h]
          exact ⟨hcb, rfl, rfl⟩
        · have h := recover_bookkeeping bc now st hcb (by simpa using hcool)
          exact ⟨h.1, h.2.2.1, h.2.2.2⟩
    | opGetState =>
        exact ⟨(updateTime_broadcastCB now st).trans hcb,
          updateTime_bcIdx now st, updateTime_sent now st⟩
  · intro hcb hcool
    have h := recover_bookkeeping bc now st hcb hcool
    exact ⟨h.2.1, h.1⟩

/-- Witness for the amended C3 theorem at concrete inputs: a failing
broadcast on the wired manager counts one error, a successful one
resets the counter, a state at the error ceiling with a nulled
callback reports the max-error issue, a subsequent operation does not
invoke the capability, and a recovery resets the counter without
restoring the callback. -/
theorem claim_C3_amended_broadcast_backoff_witness :
    (TimerManager.broadcast bcBad 5 wiredInit Msg.timerEnded).errorCount
        = wiredInit.errorCount + 1 ∧
    (TimerManager.broadcast bcOk 5 wiredInit Msg.timerEnded).errorCount = 0 ∧
    "Max error count reached" ∈ (TimerManager.isHealthy 5
        { wiredInit with broadcastCallback := false, errorCount := 10 }).issues ∧
    (TimerManager.step bcOk 6
        { wiredInit with broadcastCallback := false, errorCount := 10 }
        (TimerManager.Op.opAddTime (JSNum.num 1))).bcIdx
        = ({ wiredInit with broadcastCallback := false, errorCount := 10 } :
            TimerManager.Manager).bcIdx ∧
    (TimerManager.recover bcOk 7
        { wiredInit with broadcastCallback := false, errorCount := 10 }).1.errorCount
        = 0 ∧
    (TimerManager.recover bcOk 7
        { wiredInit with broadcastCallback := false, errorCount := 10 }).1.broadcastCallback
        = false := by
  have h1 := claim_C3_amended_broadcast_backoff bcBad 5 wiredInit Msg.timerEnded
    TimerManager.Op.opStart
  have h2 := claim_C3_amended_broadcast_backoff bcOk 5 wiredInit Msg.timerEnded
    TimerManager.Op.opStart
  have h3 := claim_C3_amended_broadcast_backoff bcOk 6
    { wiredInit with broadcastCallback := false, errorCount := 10 }
    Msg.timerEnded (TimerManager.Op.opAddTime (JSNum.num 1))
  have h4 := claim_C3_amended_broadcast_backoff bcOk 7
    { wiredInit with broadcastCallback := false, errorCount := 10 }
    Msg.timerEnded TimerManager.Op.opStart
  refine ⟨(h1.1 rfl rfl).1, h2.2.1 rfl rfl, (h3.2.2.2.1 (by norm_num)).1,
    (h3.2.2.2.2.1 rfl).2.1, (h4.2.2.2.2.2 rfl rfl).1, (h4.2.2.2.2.2 rfl rfl).2⟩

/-- C6: subscription-to-time translation.  The tier table maps 1, 2, 3
and prime to their per-tier settings; non-gift kinds add exactly the
per-tier seconds and gifts multiply by the count (in `routes.js`, with
the same multiplication in the `subgift` branch of `twitch.js`); and
in particular a tier "2" gift of count 5 with `tier2SubTime = 120` on
an inactive timer adds exactly 600 seconds and the broadcast
subscription payload reports `timeAdded = 600`. -/
theorem claim_C6_subscription_tier_mapping (bc : ℕ → Bool) (now : ℤ)
    (st : TimerManager.Manager) (uname : String) (r : ℚ)
    (h120 : st.timerState.settings.tier2SubTime = JSNum.num 120)
    (hina : st.timerState.isActive = false)
    (htr : st.timerState.timeRemaining = JSNum.num r) :
    (∀ s : Settings,
      tierLookup s "1" = Except.ok (s.regularSubTime, "Tier 1", "1000") ∧
      tierLookup s "2" = Except.ok (s.tier2SubTime, "Tier 2", "2000") ∧
      tierLookup s "3" = Except.ok (s.tier3SubTime, "Tier 3", "3000") ∧
      tierLookup s "prime" = Except.ok (s.primeSubTime, "Prime", "Prime")) ∧
    (∀ p c : JSNum,
      typeLookup p "sub" c = Except.ok ("sub", "subscription", p) ∧
      typeLookup p "resub" c = Except.ok ("resub", "resub", p) ∧
      typeLookup p "gift" c = Except.ok ("subgift", "gift", JSNum.mul p c)) ∧
    (∀ (s : Settings) (g : ℕ),
      twitchSubgiftTime s "2000" g
        = (JSNum.mul s.tier2SubTime (JSNum.num (g : ℚ)), "Tier 2")) ∧
    (∃ st2,
      simulateSubscription bc now st uname "2" "gift" (JSNum.num 5) none none
        = Except.ok (st2,
            Msg.subscription uname "subgift" "2000" "Tier 2" (JSNum.num 600)
              (JSNum.num 5) "gift" none none) ∧
      st2.timerState.timeRemaining = JSNum.num (r + 600)) := by
  have hmul : JSNum.mul (JSNum.num 120) (JSNum.num 5) = JSNum.num 600 := by
    norm_num [JSNum.mul]
  refine ⟨?_, ?_, ?_, ?_⟩
  · intro s
    refine ⟨rfl, rfl, rfl, rfl⟩
  · intro p c
    refine ⟨rfl, rfl, rfl⟩
  · intro s g
    rfl
  · have hsim : simulateSubscription bc now st uname "2" "gift" (JSNum.num 5)
        none none
        = Except.ok (TimerManager.broadcast bc now
            (TimerManager.addTime bc now st (JSNum.num 600))
            (Msg.subscription uname "subgift" "2000" "Tier 2" (JSNum.num 600)
              (JSNum.num 5) "gift" none none),
          Msg.subscription uname "subgift" "2000" "Tier 2" (JSNum.num 600)
            (JSNum.num 5) "gift" none none) := by
      unfold simulateSubscription tierLookup typeLookup
      simp [h120, hmul, Bind.bind, Except.bind, Except.instMonad]
    refine ⟨_, hsim, ?_⟩
    have hb := TimerManager.broadcast_timerState bc now
      (TimerManager.addTime bc now st (JSNum.num 600))
      (Msg.subscription uname "subgift" "2000" "Tier 2" (JSNum.num 600)
        (JSNum.num 5) "gift" none none)
    rw [congrArg TimerManager.TimerState.timeRemaining hb]
    have hc := TimerManager.core_addTime bc now st (JSNum.num 600)
    have hproj := congrArg (fun c => c.timerState.timeRemaining) hc
    refine Eq.trans hproj ?_
    have hguard : (JSNum.num (600 : ℚ)).leZero = false := by
      norm_num [JSNum.leZero]
    have hfl : JSNum.floor (JSNum.num 600) = JSNum.num 600 := by
      norm_num [JSNum.floor, JSNum.ratFloor]
    simp only [TimerManager.coreAddTime, hguard, Bool.false_eq_true, if_false]
    have hia : st.core.timerState.isActive = false := hina
    simp only [hia, Bool.false_eq_true, if_false]
    have : st.core.timerState.timeRemaining = JSNum.num r := htr
    simp [this, hfl, JSNum.add]

/-- Witness for C6 at a concrete input: a tier "2" gift of 5 on the
freshly wired manager (16 h remaining, `tier2SubTime = 120`) adds
exactly 600 seconds and the broadcast payload carries
`timeAdded = 600`. -/
theorem claim_C6_subscription_tier_mapping_witness :
    ∃ st2,
      simulateSubscription bcOk 9 wiredInit "GiftBomber" "2" "gift"
          (JSNum.num 5) none none
        = Except.ok (st2,
            Msg.subscription "GiftBomber" "subgift" "2000" "Tier 2"
              (JSNum.num 600) (JSNum.num 5) "gift" none none) ∧
      st2.timerState.timeRemaining = JSNum.num (3600 * 16 + 600) :=
  (claim_C6_subscription_tier_mapping bcOk 9 wiredInit "GiftBomber"
    (3600 * 16) rfl rfl rfl).2.2.2
